import Mathlib

set_option maxHeartbeats 1000000

/-!
Shallow embedding of the Datadog terraform provider fragment: the SLO
data sources (free-text search with pagination, structured list filters,
identity hashing) and the monitor config policy resource mapper
(create / read / update request building and state population).

Go-side effects are made explicit:
* a Go runtime panic (nil pointer dereference, failed type assertion) is
  `Except.error (Halt.crash msg)`;
* the unbounded pagination `for` loop is fuel-indexed, with
  `Except.error Halt.fuelOut` meaning the loop had not yet exited —
  termination theorems show a sufficient fuel on which the result is
  fuel-insensitive;
* `schema.ResourceData` is a flat key/value map of dynamic values, read
  through `getOk` with the SDK zero-value semantics.
-/

/-- A Go runtime stop: either a panic (`crash`) or, as a modelling artifact,
exhaustion of the fuel bounding an unbounded source loop. -/
inductive Halt where
  | crash (msg : String)
  | fuelOut
  deriving DecidableEq, Repr

/-- Dereference of a Go pointer: panics on nil. -/
def derefOpt {α : Type} : Option α → Except Halt α
  | some a => .ok a
  | none => .error (.crash "runtime error: invalid memory address or nil pointer dereference")

/-- Severity of a terraform SDK diagnostic. -/
inductive DiagSeverity where
  | error
  | warning
  deriving DecidableEq, Repr, BEq

/-- A terraform SDK `diag.Diagnostic`. -/
structure Diagnostic where
  severity : DiagSeverity
  summary : String
  detail : String
  deriving DecidableEq, Repr

/-- `diag.Diagnostics.HasError`: whether any collected diagnostic is an error. -/
def hasError (ds : List Diagnostic) : Bool :=
  ds.any fun dgn => dgn.severity == DiagSeverity.error

/-- `diag.Errorf`: one error diagnostic with the given summary. -/
def diagErrorf (msg : String) : List Diagnostic :=
  [{ severity := .error, summary := msg, detail := "" }]

/-- `diag.FromErr`: one error diagnostic carrying the error text. -/
def diagFromErr (err : String) : List Diagnostic :=
  [{ severity := .error, summary := err, detail := "" }]

/-- Modelled from the spec: the generic error-translation helper
(`utils.TranslateClientErrorDiag`, not under src/) — "a generic
error-translation function accepting a client-side error plus an optional
HTTP response and a human-readable context string, returning a structured,
host-displayable diagnostic" (spec section 6); transport errors are
"translated via the shared helper into a host diagnostic carrying the
original error and HTTP context" (section 7). Modelled as one
error-severity diagnostic carrying the context as summary and the original
error as detail. -/
def translateClientErrorDiag (err : String) (_httpStatus : Option Nat) (msg : String) :
    List Diagnostic :=
  [{ severity := .error, summary := msg, detail := err }]

/-! ## Dynamic configuration values (`schema.ResourceData`) -/

/-- An untyped configuration value as held by the terraform SDK:
a string, a bool, or a list of untyped values. -/
inductive ConfigValue where
  | strVal (s : String)
  | boolVal (b : Bool)
  | listVal (l : List ConfigValue)
  deriving Repr

/-- The flat key/value view of a `schema.ResourceData`: the keys the source
reads, mapped to the dynamic value set there (none when unset). -/
abbrev ResourceConfig := String → Option ConfigValue

/-- Whether a dynamic value is the zero value of its type (empty string, false,
empty list) — the test `ResourceData.GetOk` applies. -/
def ConfigValue.isZeroValue : ConfigValue → Bool
  | .strVal s => s == ""
  | .boolVal b => b == false
  | .listVal l => l.isEmpty

/-- `ResourceData.GetOk`: returns the value with ok=true only when the key is
set to a non-zero value; an unset key or a zero value (empty string, false,
empty list) yields ok=false, modelled as `none`. -/
def getOk (d : ResourceConfig) (key : String) : Option ConfigValue :=
  match d key with
  | none => none
  | some v => if v.isZeroValue then none else some v

/-- Go type assertion `.(string)`: panics unless the value is a string. -/
def typeAssertString : ConfigValue → Except Halt String
  | .strVal s => .ok s
  | _ => .error (.crash "interface conversion: value is not a string")

/-- Go type assertion `.(bool)`: panics unless the value is a bool. -/
def typeAssertBool : ConfigValue → Except Halt Bool
  | .boolVal b => .ok b
  | _ => .error (.crash "interface conversion: value is not a bool")

/-- Go type assertion to a slice of untyped values: panics unless a list. -/
def typeAssertList : ConfigValue → Except Halt (List ConfigValue)
  | .listVal l => .ok l
  | _ => .error (.crash "interface conversion: value is not a list")

/-- Modelled from the spec: "a string-list expansion helper for untyped
list-of-interface configuration values" (`expandStringList`, not under
src/, spec section 6). Also models the inline `s.(string)` conversion
loops in the policy request builders: each untyped element is asserted to
be a string. -/
def expandStringList : List ConfigValue → Except Halt (List String)
  | [] => .ok []
  | v :: rest => do
    let s ← typeAssertString v
    let tail ← expandStringList rest
    pure (s :: tail)

/-! ## SHA-256 (`crypto/sha256`), executable, over `Nat` words mod 2^32 -/

/-- The 64 SHA-256 round constants of FIPS 180-4 (first 32 bits of the fractional parts of the cube roots of the first 64 primes), written in decimal. -/
def K256 : List Nat :=
  [1116352408, 1899447441, 3049323471, 3921009573, 961987163, 1508970993,
   2453635748, 2870763221, 3624381080, 310598401, 607225278, 1426881987,
   1925078388, 2162078206, 2614888103, 3248222580, 3835390401, 4022224774,
   264347078, 604807628, 770255983, 1249150122, 1555081692, 1996064986,
   2554220882, 2821834349, 2952996808, 3210313671, 3336571891, 3584528711,
   113926993, 338241895, 666307205, 773529912, 1294757372, 1396182291,
   1695183700, 1986661051, 2177026350, 2456956037, 2730485921, 2820302411,
   3259730800, 3345764771, 3516065817, 3600352804, 4094571909, 275423344,
   430227734, 506948616, 659060556, 883997877, 958139571, 1322822218,
   1537002063, 1747873779, 1955562222, 2024104815, 2227730452, 2361852424,
   2428436474, 2756734187, 3204031479, 3329325298]

/-- The SHA-256 initial hash value of FIPS 180-4 (first 32 bits of the fractional parts of the square roots of the first 8 primes), written in decimal. -/
def H256 : List Nat :=
  [1779033703, 3144134277, 1013904242, 2773480762,
   1359893119, 2600822924, 528734635, 1541459225]

/-- 32-bit modular addition. -/
def add32 (a b : Nat) : Nat := (a + b) % 4294967296

/-- 32-bit right rotation. -/
def rotr32 (n x : Nat) : Nat := ((x >>> n) ||| (x <<< (32 - n))) % 4294967296

/-- SHA-256 Ch function; complement taken within 32 bits. -/
def sha256Ch (x y z : Nat) : Nat := (x &&& y) ^^^ ((x ^^^ 0xffffffff) &&& z)

/-- SHA-256 Maj function. -/
def sha256Maj (x y z : Nat) : Nat := (x &&& y) ^^^ (x &&& z) ^^^ (y &&& z)

/-- SHA-256 big sigma 0. -/
def bigSigma0 (x : Nat) : Nat := rotr32 2 x ^^^ rotr32 13 x ^^^ rotr32 22 x

/-- SHA-256 big sigma 1. -/
def bigSigma1 (x : Nat) : Nat := rotr32 6 x ^^^ rotr32 11 x ^^^ rotr32 25 x

/-- SHA-256 small sigma 0. -/
def smallSigma0 (x : Nat) : Nat := rotr32 7 x ^^^ rotr32 18 x ^^^ (x >>> 3)

/-- SHA-256 small sigma 1. -/
def smallSigma1 (x : Nat) : Nat := rotr32 17 x ^^^ rotr32 19 x ^^^ (x >>> 10)

/-- One message-schedule extension step: append word i from words i-2, i-7,
i-15, i-16. -/
def scheduleStep (w : List Nat) : List Nat :=
  let i := w.length
  w ++ [add32 (add32 (smallSigma1 (w.get! (i - 2))) (w.get! (i - 7)))
          (add32 (smallSigma0 (w.get! (i - 15))) (w.get! (i - 16)))]

/-- Extend a 16-word block to the 64-word message schedule. -/
def buildSchedule (block : List Nat) : List Nat :=
  Nat.repeat scheduleStep 48 block

/-- One SHA-256 compression round on the 8-word working state. -/
def compressStep (st : List Nat) (wk : Nat × Nat) : List Nat :=
  match st with
  | [a, b, c, d, e, f, g, h] =>
    let t1 := add32 h (add32 (bigSigma1 e) (add32 (sha256Ch e f g) (add32 wk.1 wk.2)))
    let t2 := add32 (bigSigma0 a) (sha256Maj a b c)
    [add32 t1 t2, a, b, c, add32 d t1, e, f, g]
  | _ => st

/-- Compress one 16-word block into the running 8-word hash state. -/
def sha256Compress (hs : List Nat) (block : List Nat) : List Nat :=
  let w := buildSchedule block
  let st := (w.zip K256).foldl compressStep hs
  List.zipWith add32 hs st

/-- Big-endian byte expansion of a number to the given byte count. -/
def toBytesBE : Nat → Nat → List Nat
  | 0, _ => []
  | n + 1, v => toBytesBE n (v / 256) ++ [v % 256]

/-- Pack bytes into big-endian 32-bit words, four at a time. -/
def bytesToWords : List Nat → List Nat
  | b0 :: b1 :: b2 :: b3 :: rest =>
    (((b0 * 256 + b1) * 256 + b2) * 256 + b3) :: bytesToWords rest
  | _ => []

/-- Split a word list into 16-word blocks, structurally recursing on a
fuel bounded by the list length (each step consumes at least one word). -/
def chunk16Fuel : Nat → List Nat → List (List Nat)
  | 0, _ => []
  | _, [] => []
  | fuel + 1, w :: ws => ((w :: ws).take 16) :: chunk16Fuel fuel ((w :: ws).drop 16)

/-- Split a word list into 16-word blocks. -/
def chunk16 (l : List Nat) : List (List Nat) := chunk16Fuel l.length l

/-- SHA-256 of a byte sequence (each entry < 256), as the 32 digest bytes. -/
def sha256Bytes (msg : List Nat) : List Nat :=
  let len := msg.length
  let padZeros := (64 + 55 - len % 64) % 64
  let padded := msg ++ 0x80 :: (List.replicate padZeros 0 ++ toBytesBE 8 (8 * len))
  let blocks := chunk16 (bytesToWords padded)
  let final := blocks.foldl sha256Compress H256
  final.foldr (fun w acc => toBytesBE 4 w ++ acc) []

/-- One lowercase hex digit. -/
def hexDigit (n : Nat) : Char :=
  if n < 10 then Char.ofNat (48 + n) else Char.ofNat (87 + n)

/-- Two lowercase hex digits of a byte. -/
def byteHex (b : Nat) : String :=
  String.mk [hexDigit (b / 16), hexDigit (b % 16)]

/-- The bytes Go hashes for a string: its UTF-8 encoding. The strings this
development hashes are ASCII, on which the code point is the byte. -/
def strBytes (s : String) : List Nat := s.data.map Char.toNat

/-- `fmt.Sprintf` with percent-x of a `sha256` digest: lowercase hex of the
32 digest bytes of the UTF-8 bytes of the string. -/
def sha256hex (s : String) : String :=
  String.join ((sha256Bytes (strBytes s)).map byteHex)

/-! ## SLO data source identity computations -/

/-- `computeSLOsDataSourceIDbySearchEndpointCall` (src/unnamed/part_000,
lines 225-232): hashes the dereferenced free-text query string; the
dereference panics on nil. -/
def computeSLOsDataSourceIDbySearchEndpointCall (q : Option String) : Except Halt String := do
  let s ← derefOpt q
  pure (sha256hex s)

/-- `computeSLOsDataSourceIDByListEndpointCall` (src/unnamed/part_000,
lines 234-259): builds the key string by writing the ids, name, tags and
metrics filters (empty when nil) separated by the rune with a vertical bar
between consecutive fields, then hashes it. -/
def computeSLOsDataSourceIDByListEndpointCall
    (ids nameQuery tagsQuery metricsQuery : Option String) : String :=
  let keyStr :=
    ids.getD "" ++ "|" ++ nameQuery.getD "" ++ "|" ++ tagsQuery.getD "" ++ "|"
      ++ metricsQuery.getD ""
  sha256hex keyStr

/-- `computeSLOsDataSourceID`
(src/datadog/data_source_datadog_service_level_objectives.go, lines
130-137): hashes the dereferenced query pointer with no nil check. -/
def computeSLOsDataSourceID (query : Option String) : Except Halt String := do
  let s ← derefOpt query
  pure (sha256hex s)

/-! ## SLO search and list -/

/-- A flattened SLO record as set into the `slos` attribute:
the id, name and type keys. -/
structure SLORecord where
  id : String
  name : String
  sloType : String
  deriving DecidableEq, Repr

/-- One element of `slosResp.GetData().Attributes.Slos`: its id pointer
(`slo.GetData().Id`), the nil-safe name and type getter values, and whether
`utils.CheckForUnparsed` observes unparsed content in it. -/
structure SLOListItem where
  id : Option String
  name : String
  sloType : String
  unparsed : Bool
  deriving DecidableEq, Repr

/-- The fields of a `SearchSLOResponse` the loop reads:
`GetData().Attributes.Slos` (through the `Attributes` pointer) and
`GetMeta().Pagination.LastNumber` (through the `Pagination` and
`LastNumber` pointers); `none` models a nil pointer on the path. -/
structure SearchSLOPage where
  attributesSlos : Option (List SLOListItem)
  paginationLastNumber : Option Int
  deriving Repr

/-- `datadogV1.SearchSLOOptionalParameters`. -/
structure SearchSLOOptionalParameters where
  query : Option String := none
  pageSize : Option Int := none
  pageNumber : Option Int := none
  deriving DecidableEq, Repr

/-- The Go triple returned by the `SearchSLO` client call:
a response plus HTTP status, or an error with an optional HTTP status. -/
inductive SearchSLOCallResult where
  | ok (resp : SearchSLOPage) (httpStatus : Nat)
  | fail (err : String) (httpStatus : Option Nat)
  deriving Repr

/-- The warning diagnostic recorded for an item with unparsed fields
(src/unnamed/part_000, lines 188-192): a non-fatal warning whose summary
names the skipped id. -/
def skipWarningDiag (id : String) : Diagnostic :=
  { severity := .warning
    summary := "skipping service level objective with id: " ++ id
    detail := "service level objective contains unparsed object" }

/-- The per-item body of the page loop (src/unnamed/part_000, lines
186-201): an item failing `utils.CheckForUnparsed` is recorded as a warning
naming its id and skipped; any other item is appended as a record. Both
branches dereference the id pointer. -/
def processSLOPage : List SLOListItem → Except Halt (List Diagnostic × List SLORecord)
  | [] => .ok ([], [])
  | item :: rest =>
    if item.unparsed then do
      let i ← derefOpt item.id
      let (ds, rs) ← processSLOPage rest
      pure (skipWarningDiag i :: ds, rs)
    else do
      let i ← derefOpt item.id
      let (ds, rs) ← processSLOPage rest
      pure (ds, ({ id := i, name := item.name, sloType := item.sloType } : SLORecord) :: rs)

/-- The pagination `for` loop of `searchSLO` (src/unnamed/part_000, lines
178-210), fuel-indexed. Each iteration sets the page number on the request
parameters, issues the call (an error returns the translated diagnostic
with nil slos, dropping accumulated warnings), processes the page items,
appends the page, and exits once the dereferenced pagination last number is
at most the page number just fetched. -/
def searchSLOLoop (call : SearchSLOOptionalParameters → SearchSLOCallResult)
    (reqParams : SearchSLOOptionalParameters) :
    Nat → Int → List Diagnostic → List (List SLORecord) →
    Except Halt (List Diagnostic × Option (List (List SLORecord)))
  | 0, _, _, _ => .error .fuelOut
  | fuel + 1, pageNumber, diags, allSlosPages =>
    match call { reqParams with pageNumber := some pageNumber } with
    | .fail err hs => .ok (translateClientErrorDiag err hs "error querying service level objectives", none)
    | .ok resp _ => do
      let slosRaw ← derefOpt resp.attributesSlos
      let (pageDiags, slosPage) ← processSLOPage slosRaw
      let diags' := diags ++ pageDiags
      let allSlosPages' := allSlosPages ++ [slosPage]
      let lastNumber ← derefOpt resp.paginationLastNumber
      if lastNumber ≤ pageNumber then
        .ok (diags', some allSlosPages')
      else
        searchSLOLoop call reqParams fuel (pageNumber + 1) diags' allSlosPages'

/-- `searchSLO` (src/unnamed/part_000, lines 165-219): fixes the page size
at 100, walks pages from number 0, and flattens the collected pages into a
single list. The API client is the `call` parameter; `fuel` bounds the
unbounded source loop. -/
def searchSLO (reqParams : SearchSLOOptionalParameters)
    (call : SearchSLOOptionalParameters → SearchSLOCallResult) (fuel : Nat) :
    Except Halt (List Diagnostic × Option (List SLORecord)) := do
  let withSize := { reqParams with pageSize := some 100 }
  let (diags, allSlosPages) ← searchSLOLoop call withSize fuel 0 [] []
  match allSlosPages with
  | none => pure (diags, none)
  | some pagesList => pure (diags, some pagesList.flatten)

/-- `datadogV1.ListSLOsOptionalParameters`. -/
structure ListSLOsOptionalParameters where
  ids : Option String := none
  query : Option String := none
  tagsQuery : Option String := none
  metricsQuery : Option String := none
  deriving DecidableEq, Repr

/-- `listSLO` (src/unnamed/part_000, lines 221-223): returns nil
diagnostics and a nil SLO list, ignoring its parameters. -/
def listSLO (_reqParams : ListSLOsOptionalParameters) :
    List Diagnostic × Option (List SLORecord) :=
  ([], none)

/-! ## The multi-filter SLO data source read (src/unnamed/part_000) -/

/-- Outcome of an SLO data source read: an early error return, or success
setting the slos list and the computed identity and returning the collected
warnings. -/
inductive SLOReadOutcome where
  | errReturn (diags : List Diagnostic)
  | success (diags : List Diagnostic) (slos : List SLORecord) (resourceID : String)
  deriving DecidableEq, Repr

/-- One `if v, ok := d.GetOk(key); ok` block reading a string filter into
an optional pointer (src/unnamed/part_000, lines 128-142). -/
def readStringFilter (d : ResourceConfig) (key : String) : Except Halt (Option String) :=
  match getOk d key with
  | some v => do
    let s ← typeAssertString v
    pure (some s)
  | none => pure none

/-- The ids block of the read (src/unnamed/part_000, lines 123-127): the
untyped list is expanded to strings and joined with commas when set. -/
def readIdsFilter (d : ResourceConfig) : Except Halt (Option String) :=
  match getOk d "ids" with
  | some v => do
    let l ← typeAssertList v
    let strs ← expandStringList l
    pure (some (String.intercalate "," strs))
  | none => pure none

/-- The structured-filter resolution of the read (src/unnamed/part_000,
lines 117-142): each of ids (joined with commas after string expansion),
name_query, tags_query and metrics_query is taken when `GetOk` reports it
set, both as the request parameter and as the pointer later hashed. -/
def resolveListFilters (d : ResourceConfig) : Except Halt ListSLOsOptionalParameters := do
  let idsPtr ← readIdsFilter d
  let nameQueryPtr ← readStringFilter d "name_query"
  let tagsQueryPtr ← readStringFilter d "tags_query"
  let metricsQueryPtr ← readStringFilter d "metrics_query"
  pure { ids := idsPtr, query := nameQueryPtr, tagsQuery := tagsQueryPtr,
         metricsQuery := metricsQueryPtr }

/-- The error_on_no_results initialization of the read
(src/unnamed/part_000, lines 94-98): true unless `GetOk` reports the key
set, in which case the value is asserted to bool. -/
def readErrorOnNoResults (d : ResourceConfig) : Except Halt Bool :=
  match getOk d "error_on_no_results" with
  | some v => typeAssertBool v
  | none => pure true

/-- The branch of the read selecting between the free-text search path
(when q is set, hashing q) and the structured `listSLO` path (hashing the
four filter pointers); `Sum.inl` is the early `return diags` taken when the
diagnostics of the branch contain an error (src/unnamed/part_000, lines
100-151). -/
def sloReadBranch (d : ResourceConfig)
    (call : SearchSLOOptionalParameters → SearchSLOCallResult) (fuel : Nat) :
    Except Halt ((List Diagnostic) ⊕ (List Diagnostic × List SLORecord × String)) :=
  match getOk d "q" with
  | some v => do
    let q ← typeAssertString v
    let reqParams : SearchSLOOptionalParameters := { query := some q }
    let (diags, slosOpt) ← searchSLO reqParams call fuel
    if hasError diags then
      pure (Sum.inl diags)
    else do
      let rid ← computeSLOsDataSourceIDbySearchEndpointCall (some q)
      pure (Sum.inr (diags, slosOpt.getD [], rid))
  | none => do
    let p ← resolveListFilters d
    let (diags, slosOpt) := listSLO p
    if hasError diags then
      pure (Sum.inl diags)
    else
      pure (Sum.inr (diags, slosOpt.getD [],
        computeSLOsDataSourceIDByListEndpointCall p.ids p.query p.tagsQuery p.metricsQuery))

/-- `dataSourceDatadogServiceLevelObjectivesRead` (src/unnamed/part_000,
lines 87-163). Reads error_on_no_results (defaulting to true when `GetOk`
reports it unset); when q is set it takes the free-text search path and
hashes q, otherwise the structured `listSLO` path and hashes the four
filter pointers; an error diagnostic set returns early; zero results with
the flag produce the hard zero-result error; otherwise the slos list and
identity are set. -/
def dataSourceDatadogServiceLevelObjectivesRead (d : ResourceConfig)
    (call : SearchSLOOptionalParameters → SearchSLOCallResult) (fuel : Nat) :
    Except Halt SLOReadOutcome := do
  let errorOnNoResults ← readErrorOnNoResults d
  let branch ← sloReadBranch d call fuel
  match branch with
  | Sum.inl diags => pure (SLOReadOutcome.errReturn diags)
  | Sum.inr (diags, slos, rid) =>
    if slos.isEmpty && errorOnNoResults then
      pure (SLOReadOutcome.errReturn
        (diagErrorf "your query returned no result, please try a less specific search criteria"))
    else
      pure (SLOReadOutcome.success diags slos rid)

/-- A schema-validated configuration for the multi-filter SLO data source:
each key holds a value of its declared schema type when supplied. This is
the domain the host hands the read (spec section 3: the configuration tree
is externally schema-validated). -/
def mkSLOConfig (q : Option String) (ids : Option (List String))
    (nameQuery tagsQuery metricsQuery : Option String)
    (errorOnNoResults : Option Bool) : ResourceConfig := fun key =>
  if key = "q" then q.map ConfigValue.strVal
  else if key = "ids" then ids.map (fun l => ConfigValue.listVal (l.map ConfigValue.strVal))
  else if key = "name_query" then nameQuery.map ConfigValue.strVal
  else if key = "tags_query" then tagsQuery.map ConfigValue.strVal
  else if key = "metrics_query" then metricsQuery.map ConfigValue.strVal
  else if key = "error_on_no_results" then errorOnNoResults.map ConfigValue.boolVal
  else none

/-! ## The single-query SLO data source read
(src/datadog/data_source_datadog_service_level_objectives.go) -/

namespace QueryOnlySLO

/-- `dataSourceDatadogServiceLevelObjectivesRead`
(src/datadog/data_source_datadog_service_level_objectives.go, lines
59-128): reads the optional query key into a pointer, runs the same
page-size-100 pagination loop as `searchSLO` (inlined in this source file;
an in-loop API error returns its translated diagnostics directly), sets the
slos list, and sets the identity to `computeSLOsDataSourceID` of the query
pointer — dereferenced with no nil check. -/
def dataSourceDatadogServiceLevelObjectivesRead (d : ResourceConfig)
    (call : SearchSLOOptionalParameters → SearchSLOCallResult) (fuel : Nat) :
    Except Halt SLOReadOutcome := do
  let queryPtr ← match getOk d "query" with
    | some v => do
      let q ← typeAssertString v
      pure (some q)
    | none => pure (none : Option String)
  let (diags, slosOpt) ← searchSLO { query := queryPtr } call fuel
  match slosOpt with
  | none => pure (SLOReadOutcome.errReturn diags)
  | some slos => do
    let rid ← computeSLOsDataSourceID queryPtr
    pure (SLOReadOutcome.success diags slos rid)

end QueryOnlySLO

/-! ## Monitor config policy resource
(src/datadog/resource_datadog_monitor_config_policy.go) -/

/-- `datadogV2.MonitorConfigPolicyType`: the enum currently has the single
variant "tag". -/
inductive MonitorConfigPolicyType where
  | tag
  deriving DecidableEq, Repr

/-- `datadogV2.NewMonitorConfigPolicyTypeFromValue`: parses the enum from a
string, nil (with an error, which the callers in this source discard) for
any unrecognized value. -/
def newMonitorConfigPolicyTypeFromValue (s : String) : Option MonitorConfigPolicyType :=
  if s = "tag" then some MonitorConfigPolicyType.tag else none

/-- `datadogV2.MonitorConfigPolicyTagPolicy`: optional pointer fields, all
unset by `NewMonitorConfigPolicyTagPolicy`. -/
structure MonitorConfigPolicyTagPolicy where
  tagKey : Option String := none
  tagKeyRequired : Option Bool := none
  validTagValues : Option (List String) := none
  deriving DecidableEq, Repr

/-- `datadogV2.NewMonitorConfigPolicyTagPolicy()`: all fields unset. -/
def NewMonitorConfigPolicyTagPolicy : MonitorConfigPolicyTagPolicy := {}

/-- `datadogV2.MonitorConfigPolicyPolicy`: the polymorphic policy payload,
holding the tag-policy variant when present. -/
structure MonitorConfigPolicyPolicy where
  monitorConfigPolicyTagPolicy : Option MonitorConfigPolicyTagPolicy
  deriving DecidableEq, Repr

/-- `datadogV2.MonitorConfigPolicyTagPolicyCreateRequest`: required fields. -/
structure MonitorConfigPolicyTagPolicyCreateRequest where
  tagKey : String
  tagKeyRequired : Bool
  validTagValues : List String
  deriving DecidableEq, Repr

/-- `datadogV2.MonitorConfigPolicyPolicyCreateRequest`. -/
structure MonitorConfigPolicyPolicyCreateRequest where
  monitorConfigPolicyTagPolicyCreateRequest : Option MonitorConfigPolicyTagPolicyCreateRequest
  deriving DecidableEq, Repr

/-- `d.Get(key)` for the policy resource: the set value, or the zero value
of the type the caller asserts when the key is unset (the SDK returns the
schema zero value for unset keys; the nested-block addressing of the host
schema is out of scope, the map is keyed by the literal strings the source
passes). -/
def getWithDefault (d : ResourceConfig) (key : String) (zero : ConfigValue) : ConfigValue :=
  (d key).getD zero

/-- `buildCreateRequestPolicy`
(src/datadog/resource_datadog_monitor_config_policy.go, lines 55-71): for
the tag policy type, reads tag_key as a string, tag_key_required as a bool
and valid_tag_values as a string slice via `d.Get` and type assertions, and
returns the populated tag-policy create payload; nil for any other policy
type. -/
def buildCreateRequestPolicy (d : ResourceConfig) (policyType : MonitorConfigPolicyType) :
    Except Halt (Option MonitorConfigPolicyPolicyCreateRequest) :=
  if policyType = MonitorConfigPolicyType.tag then do
    let tagKey ← typeAssertString (getWithDefault d "tag_key" (ConfigValue.strVal ""))
    let tagKeyRequired ← typeAssertBool (getWithDefault d "tag_key_required" (ConfigValue.boolVal false))
    let vals ← typeAssertList (getWithDefault d "valid_tag_values" (ConfigValue.listVal []))
    let validTagValues ← expandStringList vals
    let tagReq : MonitorConfigPolicyTagPolicyCreateRequest :=
      { tagKey := tagKey, tagKeyRequired := tagKeyRequired, validTagValues := validTagValues }
    pure (some { monitorConfigPolicyTagPolicyCreateRequest := some tagReq })
  else
    pure none

/-- `buildUpdateRequestPolicy`
(src/datadog/resource_datadog_monitor_config_policy.go, lines 73-92): for
the tag policy type, starts from an all-unset tag policy; sets tagKey when
`GetOk` reports "tag_key" set; sets tagKeyRequired when `GetOk` reports
"tag_key" set again (the source re-reads the "tag_key" key here, not
"tag_key_required", and asserts the value to bool); computes a string list
from "valid_tag_values" when set but never stores it on the policy; returns
the tag policy wrapped in the polymorphic payload. Nil for any other policy
type. -/
def buildUpdateRequestPolicy (d : ResourceConfig) (policyType : MonitorConfigPolicyType) :
    Except Halt (Option MonitorConfigPolicyPolicy) :=
  if policyType = MonitorConfigPolicyType.tag then do
    let tagPolicy := NewMonitorConfigPolicyTagPolicy
    let tagPolicy ← match getOk d "tag_key" with
      | some attr => do
        let s ← typeAssertString attr
        pure { tagPolicy with tagKey := some s }
      | none => pure tagPolicy
    let tagPolicy ← match getOk d "tag_key" with
      | some attr => do
        let b ← typeAssertBool attr
        pure { tagPolicy with tagKeyRequired := some b }
      | none => pure tagPolicy
    let _validTagValues ← match getOk d "valid_tag_values" with
      | some attr => do
        let l ← typeAssertList attr
        expandStringList l
      | none => pure []
    pure (some { monitorConfigPolicyTagPolicy := some tagPolicy })
  else
    pure none

/-- `datadogV2.MonitorConfigPolicyAttributeCreateRequest`. -/
structure MonitorConfigPolicyAttributeCreateRequest where
  policyType : MonitorConfigPolicyType
  policy : MonitorConfigPolicyPolicyCreateRequest
  deriving DecidableEq, Repr

/-- `datadogV2.MonitorConfigPolicyCreateData` with its fixed resource type. -/
structure MonitorConfigPolicyCreateData where
  attributes : MonitorConfigPolicyAttributeCreateRequest
  resourceType : String := "monitor-config-policy"
  deriving DecidableEq, Repr

/-- `datadogV2.MonitorConfigPolicyCreateRequest`. -/
structure MonitorConfigPolicyCreateRequest where
  data : MonitorConfigPolicyCreateData
  deriving DecidableEq, Repr

/-- `buildMonitorConfigPolicyCreateV2Struct`
(src/datadog/resource_datadog_monitor_config_policy.go, lines 94-105):
parses the policy type discarding the parse error, then dereferences the
possibly-nil enum pointer and the possibly-nil result of
`buildCreateRequestPolicy` while assembling the create request. -/
def buildMonitorConfigPolicyCreateV2Struct (d : ResourceConfig) :
    Except Halt MonitorConfigPolicyCreateRequest := do
  let ptStr ← typeAssertString (getWithDefault d "policy_type" (ConfigValue.strVal ""))
  let policyTypePtr := newMonitorConfigPolicyTypeFromValue ptStr
  let policyType ← derefOpt policyTypePtr
  let policyPtr ← buildCreateRequestPolicy d policyType
  let policy ← derefOpt policyPtr
  pure { data := { attributes := { policyType := policyType, policy := policy } } }

/-- `datadogV2.MonitorConfigPolicyAttributeEditRequest`. -/
structure MonitorConfigPolicyAttributeEditRequest where
  policy : MonitorConfigPolicyPolicy
  policyType : MonitorConfigPolicyType
  deriving DecidableEq, Repr

/-- `datadogV2.MonitorConfigPolicyEditData` with its fixed resource type. -/
structure MonitorConfigPolicyEditData where
  attributes : MonitorConfigPolicyAttributeEditRequest
  id : String
  resourceType : String := "monitor-config-policy"
  deriving DecidableEq, Repr

/-- `datadogV2.MonitorConfigPolicyEditRequest`. -/
structure MonitorConfigPolicyEditRequest where
  data : MonitorConfigPolicyEditData
  deriving DecidableEq, Repr

/-- `buildMonitorConfigPolicyUpdateV2Struct`
(src/datadog/resource_datadog_monitor_config_policy.go, lines 107-120):
takes the current identity, parses the policy type discarding the error,
and dereferences the enum pointer and the `buildUpdateRequestPolicy` result
while assembling the edit request. -/
def buildMonitorConfigPolicyUpdateV2Struct (currentId : String) (d : ResourceConfig) :
    Except Halt MonitorConfigPolicyEditRequest := do
  let ptStr ← typeAssertString (getWithDefault d "policy_type" (ConfigValue.strVal ""))
  let policyTypePtr := newMonitorConfigPolicyTypeFromValue ptStr
  let policyType ← derefOpt policyTypePtr
  let policyPtr ← buildUpdateRequestPolicy d policyType
  let policy ← derefOpt policyPtr
  pure { data := { attributes := { policy := policy, policyType := policyType },
                   id := currentId } }

/-- `datadogV2.MonitorConfigPolicyAttributeResponse`: optional pointers. -/
structure MonitorConfigPolicyAttributeResponse where
  policyType : Option MonitorConfigPolicyType := none
  policy : Option MonitorConfigPolicyPolicy := none
  deriving DecidableEq, Repr

/-- `datadogV2.MonitorConfigPolicyResponseData`: optional pointers. -/
structure MonitorConfigPolicyResponseData where
  id : Option String := none
  attributes : Option MonitorConfigPolicyAttributeResponse := none
  deriving DecidableEq, Repr

/-- `datadogV2.MonitorConfigPolicyResponse`, plus whether the JSON decoder
observed fields it could not map anywhere inside it (the condition
`utils.CheckForUnparsed` reports on decoded API objects). -/
structure MonitorConfigPolicyResponse where
  data : Option MonitorConfigPolicyResponseData := none
  unparsed : Bool := false
  deriving DecidableEq, Repr

/-- Modelled from the spec: the generic unknown-field check
(`utils.CheckForUnparsed`, not under src/) — "a generic check for
unparsed/unknown fields function accepting any decoded API object and
returning an error if the decoder observed fields it could not map" (spec
section 6) — applied to a decoded response. -/
def checkForUnparsedResponse (r : MonitorConfigPolicyResponse) : Option String :=
  if r.unparsed then some "response contains unparsed object" else none

/-- Modelled from the spec: the same generic unknown-field check applied to
a locally constructed request value. The decoder never ran on a request
built field-by-field from configuration (as
`buildMonitorConfigPolicyCreateV2Struct` builds it), so no unparsed fields
can be observed and the check always passes. The create handler in the
source applies the helper to the request `m`, not to the response
`mCreated`. -/
def checkForUnparsedCreateRequest (_ : MonitorConfigPolicyCreateRequest) : Option String :=
  none

/-- The locally tracked state of the policy resource: its identity and the
attributes the state-population helper sets. -/
structure PolicyResourceState where
  id : String
  policy_type : String
  tag_policy : Option (String × Bool × List String)
  deriving DecidableEq, Repr

/-- The Go triple returned by the policy API calls. -/
inductive ApiCallResult (α : Type) where
  | ok (value : α) (httpStatus : Nat)
  | fail (err : String) (httpStatus : Option Nat)

/-- `updateMonitorConfigPolicyState`
(src/datadog/resource_datadog_monitor_config_policy.go, lines 191-203):
sets the identity from the nil-safe id getter and policy_type from the
nil-safe attributes getter; when the policy type is tag, reads the tag
policy through the `Policy` pointer (a nil `Policy` panics) and sets the
tag_policy block from its nil-safe getters. -/
def updateMonitorConfigPolicyState (st : PolicyResourceState)
    (m : Option MonitorConfigPolicyResponseData) :
    Except Halt (List Diagnostic × PolicyResourceState) := do
  let id := (m.bind (fun dta => dta.id)).getD ""
  let attributes := (m.bind (fun dta => dta.attributes)).getD {}
  let policyTypeStr := match attributes.policyType with
    | some MonitorConfigPolicyType.tag => "tag"
    | none => ""
  let st' := { st with id := id, policy_type := policyTypeStr }
  if attributes.policyType = some MonitorConfigPolicyType.tag then do
    let policy ← derefOpt attributes.policy
    let tp := policy.monitorConfigPolicyTagPolicy
    let block := ((tp.bind (fun p => p.tagKey)).getD "",
       (tp.bind (fun p => p.tagKeyRequired)).getD false,
       (tp.bind (fun p => p.validTagValues)).getD [])
    pure ([], { st' with tag_policy := some block })
  else
    pure ([], st')

/-- `resourceDatadogMonitorConfigPolicyRead`
(src/datadog/resource_datadog_monitor_config_policy.go, lines 122-138): on
an API error with an HTTP 404 response, clears the identity and returns no
diagnostics; on any other error, returns the translated diagnostic leaving
the state untouched; on success, repopulates the state from the response
data. -/
def resourceDatadogMonitorConfigPolicyRead (st : PolicyResourceState)
    (apiResult : ApiCallResult MonitorConfigPolicyResponse) :
    Except Halt (List Diagnostic × PolicyResourceState) :=
  match apiResult with
  | .fail err httpStatus =>
    if httpStatus = some 404 then
      .ok ([], { st with id := "" })
    else
      .ok (translateClientErrorDiag err httpStatus "error getting monitor config policy", st)
  | .ok resp _ => updateMonitorConfigPolicyState st resp.data

/-- `resourceDatadogMonitorConfigPolicyCreate`
(src/datadog/resource_datadog_monitor_config_policy.go, lines 140-156):
builds the create request (any panic in the builder happens before the API
call), issues the call, translates an API error, applies the unknown-field
check to the request `m` it sent (not to the response), sets the identity
from the response id pointer, and repopulates state from the response
data. -/
def resourceDatadogMonitorConfigPolicyCreate (st : PolicyResourceState) (d : ResourceConfig)
    (api : MonitorConfigPolicyCreateRequest → ApiCallResult MonitorConfigPolicyResponse) :
    Except Halt (List Diagnostic × PolicyResourceState) := do
  let m ← buildMonitorConfigPolicyCreateV2Struct d
  match api m with
  | .fail err hs => pure (translateClientErrorDiag err hs "error creating monitor config policy", st)
  | .ok mCreated _ =>
    match checkForUnparsedCreateRequest m with
    | some e => pure (diagFromErr e, st)
    | none => do
      let dta ← derefOpt mCreated.data
      let newId ← derefOpt dta.id
      let st' := { st with id := newId }
      updateMonitorConfigPolicyState st' mCreated.data

/-- `resourceDatadogMonitorConfigPolicyUpdate`
(src/datadog/resource_datadog_monitor_config_policy.go, lines 158-176):
builds the edit request, issues the call, translates an API error, applies
the unknown-field check to the response `mUpdated`, and repopulates state
from the response data. -/
def resourceDatadogMonitorConfigPolicyUpdate (st : PolicyResourceState) (d : ResourceConfig)
    (api : MonitorConfigPolicyEditRequest → ApiCallResult MonitorConfigPolicyResponse) :
    Except Halt (List Diagnostic × PolicyResourceState) := do
  let monitorConfigPolicy ← buildMonitorConfigPolicyUpdateV2Struct st.id d
  match api monitorConfigPolicy with
  | .fail err hs => pure (translateClientErrorDiag err hs "error updating monitor config policy", st)
  | .ok mUpdated _ =>
    match checkForUnparsedResponse mUpdated with
    | some e => pure (diagFromErr e, st)
    | none => updateMonitorConfigPolicyState st mUpdated.data

/-- A schema-validated configuration for the policy resource, keyed by the
literal strings the source reads. -/
def mkPolicyConfig (policyType : Option String) (tagKey : Option String)
    (tagKeyRequired : Option Bool) (validTagValues : Option (List String)) :
    ResourceConfig := fun key =>
  if key = "policy_type" then policyType.map ConfigValue.strVal
  else if key = "tag_key" then tagKey.map ConfigValue.strVal
  else if key = "tag_key_required" then tagKeyRequired.map ConfigValue.boolVal
  else if key = "valid_tag_values" then
    validTagValues.map (fun l => ConfigValue.listVal (l.map ConfigValue.strVal))
  else none

/-! ## Concrete example inputs used by closed theorems -/

/-- Initial (pre-create) resource state. -/
def emptyPolicyState : PolicyResourceState := { id := "", policy_type := "", tag_policy := none }

/-- A decoded tag policy as a server response carries it. -/
def exampleTagPolicy : MonitorConfigPolicyTagPolicy :=
  { tagKey := some "env", tagKeyRequired := some true, validTagValues := some ["prod", "staging"] }

/-- Decoded response attributes for the example tag policy. -/
def exampleRespAttributes : MonitorConfigPolicyAttributeResponse :=
  { policyType := some MonitorConfigPolicyType.tag,
    policy := some { monitorConfigPolicyTagPolicy := some exampleTagPolicy } }

/-- A successful create/update response in which the decoder observed
fields it could not map (`unparsed := true`). -/
def exampleUnparsedResponse : MonitorConfigPolicyResponse :=
  { data := some { id := some "mcp-1", attributes := some exampleRespAttributes },
    unparsed := true }

/-- A schema-valid create configuration for the example tag policy. -/
def exampleCreateConfig : ResourceConfig :=
  mkPolicyConfig (some "tag") (some "env") (some true) (some ["prod", "staging"])

/-- A minimal update configuration: only the policy type is set. -/
def exampleUpdateConfig : ResourceConfig := mkPolicyConfig (some "tag") none none none

/-- State tracking the example entity before an update. -/
def exampleTrackedState : PolicyResourceState :=
  { id := "mcp-1", policy_type := "tag", tag_policy := none }

/-- The pages of a two-page search scenario: page 0 and page 1 each carry
one well-parsed item and report last page number 1. -/
def examplePage : Nat → SearchSLOPage := fun j =>
  if j = 0 then
    { attributesSlos := some [{ id := some "slo-0", name := "n0", sloType := "metric", unparsed := false }],
      paginationLastNumber := some 1 }
  else
    { attributesSlos := some [{ id := some "slo-1", name := "n1", sloType := "monitor", unparsed := false }],
      paginationLastNumber := some 1 }

/-- A mock SearchSLO client serving the two-page scenario by page number. -/
def exampleCall : SearchSLOOptionalParameters → SearchSLOCallResult := fun p =>
  if p.pageNumber = some 0 then SearchSLOCallResult.ok (examplePage 0) 200
  else if p.pageNumber = some 1 then SearchSLOCallResult.ok (examplePage 1) 200
  else SearchSLOCallResult.fail "unexpected page" none

/-- Per-page diagnostics of the two-page scenario: none. -/
def exampleDgs : Nat → List Diagnostic := fun _ => []

/-- Per-page records of the two-page scenario. -/
def exampleRcds : Nat → List SLORecord := fun j =>
  if j = 0 then [{ id := "slo-0", name := "n0", sloType := "metric" }]
  else [{ id := "slo-1", name := "n1", sloType := "monitor" }]

/-- A three-item page in which exactly the middle item has unparsed
content. -/
def exampleMixedItems : List SLOListItem :=
  [{ id := some "a", name := "n1", sloType := "metric", unparsed := false },
   { id := some "b", name := "n2", sloType := "metric", unparsed := true },
   { id := some "c", name := "n3", sloType := "monitor", unparsed := false }]

/-! ## Helper lemmas -/

theorem exceptBind_ok {α β : Type} (a : α) (f : α → Except Halt β) :
    (Except.ok a : Except Halt α) >>= f = f a := rfl

theorem exceptBind_error {α β : Type} (e : Halt) (f : α → Except Halt β) :
    (Except.error e : Except Halt α) >>= f = Except.error e := rfl

theorem expandStringList_map_strVal (l : List String) :
    expandStringList (l.map ConfigValue.strVal) = Except.ok l := by
  induction l with
  | nil => rfl
  | cons a t ih =>
    simp only [List.map_cons, expandStringList, typeAssertString, exceptBind_ok, ih]
    rfl

theorem readErrorOnNoResults_mkSLOConfig (q : Option String) (ids : Option (List String))
    (nq tq mq : Option String) (eonr : Option Bool) :
    readErrorOnNoResults (mkSLOConfig q ids nq tq mq eonr) = Except.ok true := by
  cases eonr with
  | none => rfl
  | some b => cases b <;> rfl

theorem readIdsFilter_eval (d : ResourceConfig) (l : List String)
    (h : getOk d "ids" = some (ConfigValue.listVal (l.map ConfigValue.strVal))) :
    readIdsFilter d = Except.ok (some (String.intercalate "," l)) := by
  unfold readIdsFilter
  rw [h]
  dsimp only
  rw [show typeAssertList (ConfigValue.listVal (l.map ConfigValue.strVal)) =
      Except.ok (l.map ConfigValue.strVal) from rfl, exceptBind_ok,
    expandStringList_map_strVal, exceptBind_ok]
  rfl

theorem readIdsFilter_unset (d : ResourceConfig) (h : getOk d "ids" = none) :
    readIdsFilter d = Except.ok none := by
  unfold readIdsFilter
  rw [h]
  rfl

theorem readStringFilter_set (d : ResourceConfig) (key : String) (s : String)
    (h : getOk d key = some (ConfigValue.strVal s)) :
    readStringFilter d key = Except.ok (some s) := by
  unfold readStringFilter
  rw [h]
  rfl

theorem readStringFilter_unset (d : ResourceConfig) (key : String)
    (h : getOk d key = none) :
    readStringFilter d key = Except.ok none := by
  unfold readStringFilter
  rw [h]
  rfl

theorem getOk_mapStr (d : ResourceConfig) (key : String) (o : Option String)
    (h : d key = o.map ConfigValue.strVal) :
    getOk d key = none ∨ ∃ s, getOk d key = some (ConfigValue.strVal s) := by
  rw [getOk, h]
  cases o with
  | none => exact Or.inl rfl
  | some s =>
    by_cases hz : s = ""
    · subst hz
      exact Or.inl (by simp [ConfigValue.isZeroValue])
    · exact Or.inr ⟨s, by simp [ConfigValue.isZeroValue, hz]⟩

theorem readStringFilter_mk_ok (d : ResourceConfig) (key : String) (o : Option String)
    (h : d key = o.map ConfigValue.strVal) :
    ∃ r : Option String, readStringFilter d key = Except.ok r := by
  rcases getOk_mapStr d key o h with hg | ⟨s, hg⟩
  · exact ⟨none, readStringFilter_unset d key hg⟩
  · exact ⟨some s, readStringFilter_set d key s hg⟩

theorem readIdsFilter_mk_ok (q : Option String) (ids : Option (List String))
    (nq tq mq : Option String) (eonr : Option Bool) :
    ∃ r : Option String, readIdsFilter (mkSLOConfig q ids nq tq mq eonr) = Except.ok r := by
  cases ids with
  | none => exact ⟨none, readIdsFilter_unset _ rfl⟩
  | some l =>
    cases l with
    | nil =>
      refine ⟨none, readIdsFilter_unset _ ?_⟩
      rw [getOk, show (mkSLOConfig q (some []) nq tq mq eonr) "ids" =
        some (ConfigValue.listVal []) from rfl]
      rfl
    | cons a t =>
      refine ⟨some (String.intercalate "," (a :: t)), readIdsFilter_eval _ (a :: t) ?_⟩
      rw [getOk, show (mkSLOConfig q (some (a :: t)) nq tq mq eonr) "ids" =
        some (ConfigValue.listVal ((a :: t).map ConfigValue.strVal)) from rfl]
      rfl

theorem resolveListFilters_mkSLOConfig_ok (q : Option String) (ids : Option (List String))
    (nq tq mq : Option String) (eonr : Option Bool) :
    ∃ p, resolveListFilters (mkSLOConfig q ids nq tq mq eonr) = Except.ok p := by
  obtain ⟨rids, hids⟩ := readIdsFilter_mk_ok q ids nq tq mq eonr
  obtain ⟨rnq, hnq⟩ := readStringFilter_mk_ok (mkSLOConfig q ids nq tq mq eonr) "name_query" nq rfl
  obtain ⟨rtq, htq⟩ := readStringFilter_mk_ok (mkSLOConfig q ids nq tq mq eonr) "tags_query" tq rfl
  obtain ⟨rmq, hmq⟩ := readStringFilter_mk_ok (mkSLOConfig q ids nq tq mq eonr) "metrics_query" mq rfl
  refine ⟨{ ids := rids, query := rnq, tagsQuery := rtq, metricsQuery := rmq }, ?_⟩
  unfold resolveListFilters
  rw [hids, exceptBind_ok, hnq, exceptBind_ok, htq, exceptBind_ok, hmq, exceptBind_ok]
  rfl

/-- C5: for every invocation of the multi-filter SLO data source read in
which the free-text query q is not set (so the structured-filter path via
`listSLO` is taken), the returned SLO list is empty regardless of the ids,
name_query, tags_query or metrics_query filters supplied, and the read
fails with the zero-result error; the effective error_on_no_results flag
is always true here (an unset flag defaults to true, and a set flag can
only be observed as true, since `GetOk` reports a false value as unset), so
the claimed condition "error_on_no_results in effect as true" always
holds. -/
theorem sloStructuredFilterPath_always_empty
    (ids : Option (List String)) (nq tq mq : Option String) (eonr : Option Bool)
    (call : SearchSLOOptionalParameters → SearchSLOCallResult) (fuel : Nat) :
    (∀ p, listSLO p = ([], none)) ∧
    dataSourceDatadogServiceLevelObjectivesRead (mkSLOConfig none ids nq tq mq eonr) call fuel =
      Except.ok (SLOReadOutcome.errReturn
        (diagErrorf "your query returned no result, please try a less specific search criteria")) := by
  refine ⟨fun p => rfl, ?_⟩
  obtain ⟨p, hp⟩ := resolveListFilters_mkSLOConfig_ok none ids nq tq mq eonr
  have hbranch : sloReadBranch (mkSLOConfig none ids nq tq mq eonr) call fuel =
      Except.ok (Sum.inr (([] : List Diagnostic), ([] : List SLORecord),
        computeSLOsDataSourceIDByListEndpointCall p.ids p.query p.tagsQuery p.metricsQuery)) := by
    unfold sloReadBranch
    rw [show getOk (mkSLOConfig none ids nq tq mq eonr) "q" = none from rfl]
    dsimp only
    rw [hp, exceptBind_ok]
    rfl
  unfold dataSourceDatadogServiceLevelObjectivesRead
  rw [readErrorOnNoResults_mkSLOConfig, exceptBind_ok, hbranch, exceptBind_ok]
  rfl

theorem derefOpt_some {α : Type} (a : α) : derefOpt (some a) = Except.ok a := rfl

theorem searchSLOLoop_fetches_to_last
    (call : SearchSLOOptionalParameters → SearchSLOCallResult)
    (rp : SearchSLOOptionalParameters) (k : Nat)
    (page : Nat → SearchSLOPage) (hst : Nat → Nat)
    (dgs : Nat → List Diagnostic) (rcds : Nat → List SLORecord)
    (hcall : ∀ j : Nat, j ≤ k →
      call { rp with pageNumber := some (j : Int) } = SearchSLOCallResult.ok (page j) (hst j))
    (hslos : ∀ j : Nat, j ≤ k → ∃ l, (page j).attributesSlos = some l ∧
      processSLOPage l = Except.ok (dgs j, rcds j))
    (hlast : ∀ j : Nat, j ≤ k → (page j).paginationLastNumber = some (k : Int)) :
    ∀ (m n : Nat), n + m = k → ∀ (fuel : Nat), m + 1 ≤ fuel →
      ∀ (diags : List Diagnostic) (acc : List (List SLORecord)),
      searchSLOLoop call rp fuel (n : Int) diags acc =
        Except.ok (diags ++ ((List.range' n (m + 1)).map dgs).flatten,
                   some (acc ++ (List.range' n (m + 1)).map rcds)) := by
  intro m
  induction m with
  | zero =>
    intro n hn fuel hf diags acc
    obtain ⟨fuel', rfl⟩ : ∃ f, fuel = f + 1 := ⟨fuel - 1, by omega⟩
    obtain ⟨l, hl, hproc⟩ := hslos n (by omega)
    simp only [searchSLOLoop]
    rw [hcall n (by omega)]
    dsimp only
    rw [hl, derefOpt_some, exceptBind_ok, hproc, exceptBind_ok]
    dsimp only
    rw [hlast n (by omega), derefOpt_some, exceptBind_ok,
      if_pos (show (k : Int) ≤ (n : Int) by omega)]
    simp [List.range']
  | succ m ih =>
    intro n hn fuel hf diags acc
    obtain ⟨fuel', rfl⟩ : ∃ f, fuel = f + 1 := ⟨fuel - 1, by omega⟩
    obtain ⟨l, hl, hproc⟩ := hslos n (by omega)
    simp only [searchSLOLoop]
    rw [hcall n (by omega)]
    dsimp only
    rw [hl, derefOpt_some, exceptBind_ok, hproc, exceptBind_ok]
    dsimp only
    rw [hlast n (by omega), derefOpt_some, exceptBind_ok,
      if_neg (show ¬ ((k : Int) ≤ (n : Int)) by omega),
      show ((n : Int) + 1) = ((n + 1 : Nat) : Int) by push_cast; ring,
      ih (n + 1) (by omega) fuel' (by omega) (diags ++ dgs n) (acc ++ [rcds n])]
    simp [List.range'_succ, List.append_assoc]

/-- C4: for every sequence of SLO search pages in which every page up to
number k reports pagination last page number k (so the page fetched at
number k reports last page number equal to k and earlier pages report a
later last page), the pagination loop — page size 100, starting at page 0,
stopping when the reported last page number is at most the page just
fetched — terminates within fuel k+1: it fetches exactly the k+1 pages
numbered 0 through k (the accumulated page list is their k+1 per-page
results in page order) and returns all accepted items concatenated in page
order. -/
theorem searchSLO_paginates_k_plus_one_pages
    (base : SearchSLOOptionalParameters) (k : Nat)
    (call : SearchSLOOptionalParameters → SearchSLOCallResult)
    (page : Nat → SearchSLOPage) (hst : Nat → Nat)
    (dgs : Nat → List Diagnostic) (rcds : Nat → List SLORecord)
    (hcall : ∀ j : Nat, j ≤ k →
      call { base with pageSize := some 100, pageNumber := some (j : Int) } =
        SearchSLOCallResult.ok (page j) (hst j))
    (hslos : ∀ j : Nat, j ≤ k → ∃ l, (page j).attributesSlos = some l ∧
      processSLOPage l = Except.ok (dgs j, rcds j))
    (hlast : ∀ j : Nat, j ≤ k → (page j).paginationLastNumber = some (k : Int))
    (fuel : Nat) (hfuel : k + 1 ≤ fuel) :
    searchSLOLoop call { base with pageSize := some 100 } fuel 0 [] [] =
      Except.ok (((List.range (k + 1)).map dgs).flatten,
                 some ((List.range (k + 1)).map rcds)) ∧
    ((List.range (k + 1)).map rcds).length = k + 1 ∧
    searchSLO base call fuel =
      Except.ok (((List.range (k + 1)).map dgs).flatten,
                 some (((List.range (k + 1)).map rcds).flatten)) := by
  have hloop := searchSLOLoop_fetches_to_last call { base with pageSize := some 100 } k
    page hst dgs rcds (fun j hj => hcall j hj) hslos hlast k 0 (by omega) fuel (by omega) [] []
  simp only [Nat.cast_zero, List.nil_append, ← List.range_eq_range'] at hloop
  refine ⟨hloop, by simp, ?_⟩
  unfold searchSLO
  dsimp only
  rw [hloop, exceptBind_ok]
  rfl

/-- Witness for C4: the concrete two-page scenario (each page reports last
page number 1) fetches exactly pages 0 and 1 and concatenates their items
in page order. -/
theorem searchSLO_paginates_witness :
    searchSLO {} exampleCall 2 =
      Except.ok (([] : List Diagnostic),
        some [({ id := "slo-0", name := "n0", sloType := "metric" } : SLORecord),
              { id := "slo-1", name := "n1", sloType := "monitor" }]) := by
  have h := searchSLO_paginates_k_plus_one_pages {} 1 exampleCall examplePage (fun _ => 200)
    exampleDgs exampleRcds
    (by intro j hj; interval_cases j <;> rfl)
    (by intro j hj; interval_cases j <;> exact ⟨_, rfl, rfl⟩)
    (by intro j hj; interval_cases j <;> rfl)
    2 (by omega)
  exact h.2.2

theorem hasError_skipWarnings (l : List SLOListItem) :
    hasError (l.map (fun it => skipWarningDiag (it.id.getD ""))) = false := by
  induction l with
  | nil => rfl
  | cons a t ih =>
    simp [hasError, skipWarningDiag]
    exact ⟨rfl, fun a _ => rfl⟩

/-- C9: in each fetched page, exactly the items rejected by the
unknown-field check are omitted from the record list, each contributing
exactly one warning diagnostic whose summary names the id of that item (built by
`skipWarningDiag`), while every other item is included unchanged in order;
the produced diagnostics contain no error, so they never trip the
`HasError` early return of the read and the query does not fail because of the skipped
items. -/
theorem processSLOPage_skips_unparsed (items : List SLOListItem)
    (h : ∀ it ∈ items, it.id ≠ none) :
    processSLOPage items = Except.ok
      ((items.filter (fun it => it.unparsed)).map (fun it => skipWarningDiag (it.id.getD "")),
       (items.filter (fun it => !it.unparsed)).map
         (fun it => ({ id := it.id.getD "", name := it.name, sloType := it.sloType } : SLORecord))) ∧
    hasError ((items.filter (fun it => it.unparsed)).map
      (fun it => skipWarningDiag (it.id.getD ""))) = false := by
  refine ⟨?_, hasError_skipWarnings _⟩
  induction items with
  | nil => rfl
  | cons it rest ih =>
    have hid : it.id ≠ none := h it (by simp)
    obtain ⟨i, hi⟩ : ∃ i, it.id = some i := by
      cases hcase : it.id with
      | none => exact absurd hcase hid
      | some i => exact ⟨i, rfl⟩
    have ih' := ih (fun x hx => h x (by simp [hx]))
    cases hu : it.unparsed with
    | false =>
      simp only [processSLOPage, hu, Bool.false_eq_true, if_false, hi, derefOpt_some,
        exceptBind_ok, ih', List.filter_cons, Bool.not_false]
      simp [hi]
      rfl
    | true =>
      simp only [processSLOPage, hu, if_true, hi, derefOpt_some,
        exceptBind_ok, ih', List.filter_cons, Bool.not_true]
      simp [hi]
      rfl

/-- Witness for C9: a three-item page whose middle item has unparsed
content yields exactly one warning naming the id of that item, the other two
records unchanged in order, and no error severity. -/
theorem processSLOPage_skips_unparsed_witness :
    processSLOPage exampleMixedItems = Except.ok
      ([skipWarningDiag "b"],
       [({ id := "a", name := "n1", sloType := "metric" } : SLORecord),
        { id := "c", name := "n3", sloType := "monitor" }]) ∧
    hasError [skipWarningDiag "b"] = false := by
  have h := processSLOPage_skips_unparsed exampleMixedItems (by decide)
  exact h

/-- C8: a monitor config policy read whose API call fails with HTTP 404
clears the entity identity and returns no diagnostics; a read failing with
any other error (a different status, or no HTTP response at all) returns
the translated error diagnostic — which carries error severity — and
leaves the state, identity included, untouched. -/
theorem monitorConfigPolicyRead_404_clears_identity (st : PolicyResourceState)
    (err : String) (hs : Option Nat) :
    resourceDatadogMonitorConfigPolicyRead st (ApiCallResult.fail err (some 404)) =
      Except.ok ([], { st with id := "" }) ∧
    (hs ≠ some 404 →
      resourceDatadogMonitorConfigPolicyRead st (ApiCallResult.fail err hs) =
        Except.ok (translateClientErrorDiag err hs "error getting monitor config policy", st) ∧
      hasError (translateClientErrorDiag err hs "error getting monitor config policy") = true) := by
  refine ⟨rfl, fun h => ⟨?_, rfl⟩⟩
  unfold resourceDatadogMonitorConfigPolicyRead
  dsimp only
  rw [if_neg h]

/-- Witness for C8: a 404 clears the identity with no diagnostics, and a
500 returns the translated error diagnostic with the state untouched. -/
theorem monitorConfigPolicyRead_404_witness :
    resourceDatadogMonitorConfigPolicyRead exampleTrackedState (ApiCallResult.fail "boom" (some 404)) =
      Except.ok ([], { exampleTrackedState with id := "" }) ∧
    resourceDatadogMonitorConfigPolicyRead exampleTrackedState (ApiCallResult.fail "boom" (some 500)) =
      Except.ok (translateClientErrorDiag "boom" (some 500) "error getting monitor config policy",
        exampleTrackedState) :=
  ⟨(monitorConfigPolicyRead_404_clears_identity exampleTrackedState "boom" (some 500)).1,
   ((monitorConfigPolicyRead_404_clears_identity exampleTrackedState "boom" (some 500)).2
     (by decide)).1⟩

/-- C1 fails on the code: with policy type "tag", a configuration that
explicitly sets tag_key_required=true and valid_tag_values (but leaves
tag_key unset), `buildUpdateRequestPolicy` returns the all-unset tag policy
— both explicitly set fields are dropped, because the required-flag block
re-reads the "tag_key" key (unset here) and the computed valid-tag-values
list is never stored. When tag_key is also set, the same mis-wired block
asserts the tag_key string to bool and panics. -/
theorem buildUpdateRequestPolicy_drops_fields :
    buildUpdateRequestPolicy (mkPolicyConfig (some "tag") none (some true) (some ["prod", "staging"]))
      MonitorConfigPolicyType.tag =
      Except.ok (some { monitorConfigPolicyTagPolicy := some NewMonitorConfigPolicyTagPolicy }) ∧
    buildUpdateRequestPolicy (mkPolicyConfig (some "tag") (some "env") (some true) (some ["prod"]))
      MonitorConfigPolicyType.tag =
      Except.error (Halt.crash "interface conversion: value is not a bool") := ⟨rfl, rfl⟩

/-- C2 fails on the code: for a create whose configured policy_type is the
unsupported "xyz", the create operation does not return an error
diagnostic; it crashes on a nil pointer dereference (the discarded-error
enum parse yields a nil pointer, dereferenced before the nil policy payload
is even built), for every API client and every starting state — in
particular the remote call is never invoked, since the result does not
depend on the `api` argument. -/
theorem monitorConfigPolicyCreate_unsupported_type_panics :
    ∀ (api : MonitorConfigPolicyCreateRequest → ApiCallResult MonitorConfigPolicyResponse)
      (st : PolicyResourceState),
      resourceDatadogMonitorConfigPolicyCreate st (mkPolicyConfig (some "xyz") none none none) api =
        Except.error (Halt.crash "runtime error: invalid memory address or nil pointer dereference") :=
  fun _ _ => rfl

/-- C3 fails on the code for the create path: a successful create whose
response carries unparsed fields returns no error diagnostic at all (the
code checks the request it sent, which can never carry unparsed fields),
even though the same response is recognized as unparsed by the response
check, and the update path — which does check its response — hard-errors on
it. -/
theorem monitorConfigPolicyCreate_ignores_response_unparsed :
    resourceDatadogMonitorConfigPolicyCreate emptyPolicyState exampleCreateConfig
      (fun _ => ApiCallResult.ok exampleUnparsedResponse 200) =
      Except.ok ([], { id := "mcp-1", policy_type := "tag",
                       tag_policy := some ("env", true, ["prod", "staging"]) }) ∧
    checkForUnparsedResponse exampleUnparsedResponse = some "response contains unparsed object" ∧
    resourceDatadogMonitorConfigPolicyUpdate exampleTrackedState exampleUpdateConfig
      (fun _ => ApiCallResult.ok exampleUnparsedResponse 200) =
      Except.ok (diagFromErr "response contains unparsed object", exampleTrackedState) :=
  ⟨rfl, rfl, rfl⟩

/-- Counterexample to C6: two reads that differ in the ids filter (and in
the name filter) — ids "a|b" with name_query "c" versus ids "a" with
name_query "b|c" — produce byte-identical identity strings, because both
concatenate to the same key "a|b|c||". -/
theorem computeSLOsDataSourceIDByListEndpointCall_collision :
    computeSLOsDataSourceIDByListEndpointCall (some "a|b") (some "c") none none =
      computeSLOsDataSourceIDByListEndpointCall (some "a") (some "b|c") none none := rfl

/-- C6 amended: identical effective filters give byte-identical identities
(for both the search-endpoint and list-endpoint identities), and the
specific field-boundary pair cited — ids "a|b" with no name_query versus
ids "a" with name_query "b" — gives different identities (their keys differ
in trailing separators); but distinct filters do not always give distinct
identities, since a filter value containing the separator can make two
different filter assignments concatenate to the same key. -/
theorem sloListIdentity_deterministic_but_separator_collides :
    (∀ ids1 nq1 tq1 mq1 ids2 nq2 tq2 mq2 : Option String,
        ids1 = ids2 → nq1 = nq2 → tq1 = tq2 → mq1 = mq2 →
        computeSLOsDataSourceIDByListEndpointCall ids1 nq1 tq1 mq1 =
          computeSLOsDataSourceIDByListEndpointCall ids2 nq2 tq2 mq2) ∧
    (∀ q1 q2 : Option String, q1 = q2 →
        computeSLOsDataSourceIDbySearchEndpointCall q1 =
          computeSLOsDataSourceIDbySearchEndpointCall q2) ∧
    computeSLOsDataSourceIDByListEndpointCall (some "a|b") none none none ≠
      computeSLOsDataSourceIDByListEndpointCall (some "a") (some "b") none none := by
  refine ⟨?_, ?_, ?_⟩
  · intro ids1 nq1 tq1 mq1 ids2 nq2 tq2 mq2 h1 h2 h3 h4
    rw [h1, h2, h3, h4]
  · intro q1 q2 h
    rw [h]
  · decide

/-- Witness for C6 amended: the determinism conjunct at one concrete
filter assignment, together with the boundary-case distinctness. -/
theorem sloListIdentity_deterministic_witness :
    computeSLOsDataSourceIDByListEndpointCall (some "x") (some "y") none none =
      computeSLOsDataSourceIDByListEndpointCall (some "x") (some "y") none none ∧
    computeSLOsDataSourceIDByListEndpointCall (some "a|b") none none none ≠
      computeSLOsDataSourceIDByListEndpointCall (some "a") (some "b") none none :=
  ⟨sloListIdentity_deterministic_but_separator_collides.1 (some "x") (some "y") none none
      (some "x") (some "y") none none rfl rfl rfl rfl,
   sloListIdentity_deterministic_but_separator_collides.2.2⟩

/-- C7 fails on the code: a read with error_on_no_results explicitly set to
false and zero results still returns the hard zero-result error, because
`GetOk` reports a false boolean as unset and the flag stays at its
initialized true. -/
theorem sloRead_explicit_false_flag_still_errors :
    dataSourceDatadogServiceLevelObjectivesRead
      (mkSLOConfig none none none none none (some false))
      (fun _ => SearchSLOCallResult.fail "unused" none) 1 =
      Except.ok (SLOReadOutcome.errReturn
        (diagErrorf "your query returned no result, please try a less specific search criteria")) := rfl

/-- C10: `computeSLOsDataSourceID` dereferences its query pointer with no
nil check, so it crashes on a nil pointer; consequently the single-query
SLO data source read with the "query" attribute unset crashes instead of
computing an identity, even when the search succeeds. -/
theorem computeSLOsDataSourceID_nil_query_panics :
    computeSLOsDataSourceID none =
      Except.error (Halt.crash "runtime error: invalid memory address or nil pointer dereference") ∧
    QueryOnlySLO.dataSourceDatadogServiceLevelObjectivesRead (fun _ => none)
      (fun _ => SearchSLOCallResult.ok
        { attributesSlos := some [], paginationLastNumber := some 0 } 200) 1 =
      Except.error (Halt.crash "runtime error: invalid memory address or nil pointer dereference") :=
  ⟨rfl, rfl⟩
